import Mathlib

/-!
Verification of the build-and-deploy workflow of the
Deploy-an-ERC-20-token-on-Scroll-using-Hardhat repository.

The development shallowly embeds:
* the Solidity token sources (`contracts/CoinInu.sol` and the README's
  inline contract) as records of their declared names and ERC-20 metadata,
  together with OpenZeppelin's `ERC20._mint` as acting on a supply/balance
  state;
* the deploy script `scripts/deploy.js` as a function `runMain` from an
  environment (compiled artifact set, endpoint behaviour, confirmation
  schedule) and a step budget for the confirmation wait to a run outcome
  recording stdout, stderr, the process exit code, the stages entered and
  every `deploy()` invocation with its constructor-argument list.

The external hardhat/ethers boundary is modelled at the granularity the
script observes it: `ethers.getContractFactory` resolves a name against the
compiled artifact set or fails, `factory.deploy()` resolves as soon as the
endpoint accepts the broadcast (the contract address is already known then),
and `contract.deployed()` resolves once the creation transaction is
confirmed.  The script configures no timeout anywhere, so an unconfirmed
transaction leaves `deployed()` pending for every step budget.
-/

namespace ScrollDeploy

/-- A network entry of `hardhat.config.js`: a name and an RPC endpoint URL. -/
structure NetworkConfig where
  name : String
  url : String
deriving DecidableEq

/-- The single network configured in `hardhat.config.js`. -/
def scrollL2 : NetworkConfig :=
  { name := "scrollL2", url := "https://prealpha.scroll.io/l2" }

/-- The handle returned by `factory.deploy()`: in ethers v5 the contract
address is available on it immediately after broadcast acceptance. -/
structure PendingDeployment where
  address : String
deriving DecidableEq

/-- The result observed once the creation transaction is confirmed. -/
structure DeploymentResult where
  address : String
deriving DecidableEq

/-- The error taxonomy of the workflow (spec section 7).  The deploy script
itself names none of these; they label the failure kinds of the external
calls it awaits. -/
inductive DeployError where
  | artifactNotFound : String → DeployError
  | submissionError : DeployError
  | confirmationError : DeployError
deriving DecidableEq

/-- Rendering of an error by `console.error` in the top-level catch. -/
def DeployError.message : DeployError → String
  | DeployError.artifactNotFound n => "Artifact for contract " ++ n ++ " not found"
  | DeployError.submissionError => "SubmissionError"
  | DeployError.confirmationError => "ConfirmationError"

/-- Environment a run of the script executes against: the set of compiled
artifact names, whether the endpoint accepts the broadcast, the address the
network assigns to the new contract, and the step index at which the
creation transaction is confirmed (`none` = never confirmed). -/
structure DeployEnv where
  artifacts : List String
  broadcastAccepted : Bool
  assignedAddress : String
  confirmsAt : Option Nat
deriving DecidableEq

/-- Model of `ethers.getContractFactory(name)`: resolves the name against
the compiled artifact set, failing when no artifact matches. -/
def getContractFactory (env : DeployEnv) (name : String) : Except DeployError String :=
  if name ∈ env.artifacts then Except.ok name
  else Except.error (DeployError.artifactNotFound name)

/-- The constructor-argument list the script passes to `deploy()`:
`coinInu.deploy()` is called with zero arguments. -/
def ctorArgs : List String := []

/-- Model of `factory.deploy(...)`: signs and broadcasts the creation
transaction and resolves to a pending-deployment handle as soon as the
endpoint accepts it; it does not consult the confirmation schedule. -/
def factoryDeploy (env : DeployEnv) (_args : List String) : Except DeployError PendingDeployment :=
  if env.broadcastAccepted then Except.ok { address := env.assignedAddress }
  else Except.error DeployError.submissionError

/-- Outcome of observing `contract.deployed()` for a bounded number of
steps. -/
inductive WaitOutcome where
  | resolved : DeploymentResult → WaitOutcome
  | stillPending : WaitOutcome
  | failed : DeployError → WaitOutcome
deriving DecidableEq

/-- Model of `deployedCoinInu.deployed()`: resolves to the deployment
result once the transaction is confirmed.  The script configures no
timeout, so before confirmation — and forever, when the transaction is
never confirmed — the wait is still pending after any number of steps. -/
def waitDeployed (pd : PendingDeployment) (confirmsAt : Option Nat) (steps : Nat) :
    WaitOutcome :=
  match confirmsAt with
  | some t =>
      if t ≤ steps then WaitOutcome.resolved { address := pd.address }
      else WaitOutcome.stillPending
  | none => WaitOutcome.stillPending

/-- The first line `scripts/deploy.js` prints, right after `deploy()`
resolves. -/
def progressLine : String := "Deploying smart contract..."

/-- The final line `scripts/deploy.js` prints on success.  The trailing
network label is the hardcoded text `Scroll L2`, not read from any
configuration. -/
def successLine (addr : String) : String :=
  "The smart contract was deployed at: " ++ addr ++ " on Scroll L2!"

/-- The stages of the workflow as the spec names them. -/
inductive Stage where
  | load
  | submit
  | wait
  | report
deriving DecidableEq

/-- Observable state of a run: stdout lines, stderr lines, the process exit
code, the stages entered in order, and the argument list of every
`deploy()` invocation. -/
structure RunState where
  stdoutLines : List String
  stderrLines : List String
  exitCode : Nat
  stages : List Stage
  deployCalls : List (List String)
deriving DecidableEq

/-- A run either terminates (the process exits) or is still suspended in
the confirmation wait after the given step budget. -/
inductive RunOutcome where
  | finished : RunState → RunOutcome
  | pending : RunState → RunOutcome
deriving DecidableEq

/-- The observable state of an outcome, final or so-far. -/
def RunOutcome.state : RunOutcome → RunState
  | RunOutcome.finished s => s
  | RunOutcome.pending s => s

/-- Observable state of the path where `getContractFactory` rejects: the
catch prints the error, sets exit code 1; nothing was broadcast. -/
def loadFailState : RunState :=
  { stdoutLines := [],
    stderrLines := [(DeployError.artifactNotFound "CoinInu").message],
    exitCode := 1, stages := [Stage.load, Stage.report], deployCalls := [] }

/-- Observable state of the path where `deploy()` rejects: the catch prints
the error, sets exit code 1; no stdout line was printed. -/
def submitFailState : RunState :=
  { stdoutLines := [], stderrLines := [DeployError.submissionError.message],
    exitCode := 1, stages := [Stage.load, Stage.submit, Stage.report],
    deployCalls := [ctorArgs] }

/-- Observable state of the path where `deployed()` rejects after the
progress line was printed. -/
def waitFailState (e : DeployError) : RunState :=
  { stdoutLines := [progressLine], stderrLines := [e.message], exitCode := 1,
    stages := [Stage.load, Stage.submit, Stage.wait, Stage.report],
    deployCalls := [ctorArgs] }

/-- Observable state of the successful path: both lines printed, exit code
0 (the script never sets `process.exitCode`, which defaults to 0). -/
def successState (addr : String) : RunState :=
  { stdoutLines := [progressLine, successLine addr], stderrLines := [],
    exitCode := 0,
    stages := [Stage.load, Stage.submit, Stage.wait, Stage.report],
    deployCalls := [ctorArgs] }

/-- Observable state while the run is still suspended in `deployed()`: the
progress line is out, nothing else happened yet. -/
def pendingState : RunState :=
  { stdoutLines := [progressLine], stderrLines := [], exitCode := 0,
    stages := [Stage.load, Stage.submit, Stage.wait], deployCalls := [ctorArgs] }

/-- Shallow embedding of `main()` in `scripts/deploy.js`, composed with its
top-level `main().catch(...)` handler.  The body is the straight-line
sequence of the script: `getContractFactory("CoinInu")`, then
`coinInu.deploy()`, then `console.log` of the progress line, then
`deployedCoinInu.deployed()`, then `console.log` of the success line.  Any
rejection jumps to the catch, which `console.error`s the error and sets
`process.exitCode = 1`; otherwise the process exits with code 0.  The
network the CLI selects is passed in but the script body never reads it. -/
def runMain (env : DeployEnv) (net : NetworkConfig) (fuel : Nat) : RunOutcome :=
  match getContractFactory env "CoinInu" with
  | Except.error _ => RunOutcome.finished loadFailState
  | Except.ok _ =>
      match factoryDeploy env ctorArgs with
      | Except.error _ => RunOutcome.finished submitFailState
      | Except.ok pd =>
          match waitDeployed pd env.confirmsAt fuel with
          | WaitOutcome.resolved r => RunOutcome.finished (successState r.address)
          | WaitOutcome.stillPending => RunOutcome.pending pendingState
          | WaitOutcome.failed e => RunOutcome.finished (waitFailState e)

/-- A Solidity token source as the claims observe it: the declared contract
name and the ERC-20 constructor's name and symbol arguments. -/
structure SolidityContract where
  contractName : String
  tokenName : String
  tokenSymbol : String
deriving DecidableEq

/-- The contract declared in `contracts/CoinInu.sol`: the declaration is
`contract INUSCROLL is ERC20` with constructor call
`ERC20("INU SCROLL", "SINU")`. -/
def coinInuSolContract : SolidityContract :=
  { contractName := "INUSCROLL", tokenName := "INU SCROLL", tokenSymbol := "SINU" }

/-- The contract declared in the unnamed source file (the README's inline
listing): `contract CoinInu is ERC20` with constructor call
`ERC20("Coin Inu", "CINU")`. -/
def readmeContract : SolidityContract :=
  { contractName := "CoinInu", tokenName := "Coin Inu", tokenSymbol := "CINU" }

/-- The hardhat artifact produced from a Solidity source is named after the
declared contract, not after the file. -/
def artifactName (c : SolidityContract) : String := c.contractName

/-- The name `scripts/deploy.js` passes to `ethers.getContractFactory`. -/
def requestedFactoryName : String := "CoinInu"

/-- OpenZeppelin `ERC20.decimals()` default, not overridden by either
contract. -/
def decimals : Nat := 18

/-- ERC-20 ledger state: total supply and per-account balances. -/
structure ERC20State where
  totalSupply : Nat
  balanceOf : String → Nat

/-- The state `ERC20`'s own constructor leaves: zero supply, all balances
zero. -/
def initialERC20 : ERC20State :=
  { totalSupply := 0, balanceOf := fun _ => 0 }

/-- OpenZeppelin `ERC20._mint(account, amount)`: adds `amount` to the total
supply and to `account`'s balance. -/
def mint (s : ERC20State) (account : String) (amount : Nat) : ERC20State :=
  { totalSupply := s.totalSupply + amount,
    balanceOf := fun a => if a = account then s.balanceOf a + amount else s.balanceOf a }

/-- The amount both constructors mint: `1000000000 * 10 ** decimals()`. -/
def mintAmount : Nat := 1000000000 * 10 ^ decimals

/-- The token constructor: `_mint(msg.sender, 1000000000 * 10 ** decimals())`
run from the fresh ERC-20 state (identical in `contracts/CoinInu.sol` and
the README contract). -/
def coinInuConstructor (sender : String) : ERC20State :=
  mint initialERC20 sender mintAmount

/-- Helper: when no compiled artifact is named `CoinInu`, the run ends in
the load-failure state. -/
theorem runMain_load_failure (env : DeployEnv) (net : NetworkConfig) (fuel : Nat)
    (h : "CoinInu" ∉ env.artifacts) :
    runMain env net fuel = RunOutcome.finished loadFailState := by
  simp [runMain, getContractFactory, h]

/-- Helper: when the artifact is present but the endpoint rejects the
broadcast, the run ends in the submit-failure state. -/
theorem runMain_submit_failure (env : DeployEnv) (net : NetworkConfig) (fuel : Nat)
    (hart : "CoinInu" ∈ env.artifacts) (hacc : env.broadcastAccepted = false) :
    runMain env net fuel = RunOutcome.finished submitFailState := by
  simp [runMain, getContractFactory, factoryDeploy, hart, hacc]

/-- Helper: when the artifact is present, the broadcast is accepted and the
transaction confirms within the step budget, the run ends in the success
state carrying the assigned address. -/
theorem runMain_success (env : DeployEnv) (net : NetworkConfig) (fuel t : Nat)
    (hart : "CoinInu" ∈ env.artifacts) (hacc : env.broadcastAccepted = true)
    (hconf : env.confirmsAt = some t) (hfuel : t ≤ fuel) :
    runMain env net fuel = RunOutcome.finished (successState env.assignedAddress) := by
  simp [runMain, getContractFactory, factoryDeploy, waitDeployed, hart, hacc, hconf, hfuel]

/-- Helper: when the artifact is present, the broadcast is accepted and the
wait is still unconfirmed after the step budget, the run is still pending. -/
theorem runMain_pending (env : DeployEnv) (net : NetworkConfig) (fuel : Nat)
    (hart : "CoinInu" ∈ env.artifacts) (hacc : env.broadcastAccepted = true)
    (hw : waitDeployed { address := env.assignedAddress } env.confirmsAt fuel =
      WaitOutcome.stillPending) :
    runMain env net fuel = RunOutcome.pending pendingState := by
  simp [runMain, getContractFactory, factoryDeploy, hart, hacc, hw]

/-- Helper: every run lands in one of exactly four observable shapes:
load failure, submit failure, success with the assigned address, or still
pending in the confirmation wait. -/
theorem runMain_shape (env : DeployEnv) (net : NetworkConfig) (fuel : Nat) :
    runMain env net fuel = RunOutcome.finished loadFailState ∨
    runMain env net fuel = RunOutcome.finished submitFailState ∨
    runMain env net fuel = RunOutcome.finished (successState env.assignedAddress) ∨
    runMain env net fuel = RunOutcome.pending pendingState := by
  by_cases hart : "CoinInu" ∈ env.artifacts
  · cases hacc : env.broadcastAccepted with
    | false => exact Or.inr (Or.inl (runMain_submit_failure env net fuel hart hacc))
    | true =>
      cases hconf : env.confirmsAt with
      | none =>
        refine Or.inr (Or.inr (Or.inr (runMain_pending env net fuel hart hacc ?_)))
        simp [waitDeployed, hconf]
      | some t =>
        by_cases hfuel : t ≤ fuel
        · exact Or.inr (Or.inr (Or.inl (runMain_success env net fuel t hart hacc hconf hfuel)))
        · refine Or.inr (Or.inr (Or.inr (runMain_pending env net fuel hart hacc ?_)))
          simp [waitDeployed, hconf, hfuel]
  · exact Or.inl (runMain_load_failure env net fuel hart)

/-- C1 counterexample: on the successful end-to-end run the second stdout
line ends in the hardcoded text `on Scroll L2!` (with a space), not
`on ScrollL2!` as the claim states. -/
theorem C1_counterexample :
    (runMain
      { artifacts := ["CoinInu"], broadcastAccepted := true,
        assignedAddress := "0xabc...123", confirmsAt := some 1 }
      scrollL2 1).state.stdoutLines =
      [progressLine, "The smart contract was deployed at: 0xabc...123 on Scroll L2!"] ∧
    "The smart contract was deployed at: 0xabc...123 on Scroll L2!" ≠
      "The smart contract was deployed at: 0xabc...123 on ScrollL2!" := by
  exact ⟨rfl, by decide⟩

/-- C1 (amended): when an artifact named `CoinInu` is present and the
network confirms within the step budget, the workflow deploys with zero
constructor arguments, prints `Deploying smart contract...` followed by
`The smart contract was deployed at: <address> on Scroll L2!`, and the
process exit status is 0. -/
theorem C1_end_to_end (env : DeployEnv) (net : NetworkConfig) (fuel t : Nat)
    (hart : "CoinInu" ∈ env.artifacts) (hacc : env.broadcastAccepted = true)
    (hconf : env.confirmsAt = some t) (hfuel : t ≤ fuel) :
    runMain env net fuel = RunOutcome.finished (successState env.assignedAddress) ∧
    (successState env.assignedAddress).stdoutLines =
      [progressLine,
       "The smart contract was deployed at: " ++ env.assignedAddress ++ " on Scroll L2!"] ∧
    (successState env.assignedAddress).exitCode = 0 ∧
    (successState env.assignedAddress).deployCalls = [[]] :=
  ⟨runMain_success env net fuel t hart hacc hconf hfuel, rfl, rfl, rfl⟩

/-- C1 witness: the amended end-to-end theorem evaluated on a concrete
confirming environment. -/
theorem C1_end_to_end_witness :
    runMain
      { artifacts := ["CoinInu"], broadcastAccepted := true,
        assignedAddress := "0xabc...123", confirmsAt := some 1 }
      scrollL2 2 = RunOutcome.finished (successState "0xabc...123") ∧
    (successState "0xabc...123").stdoutLines =
      [progressLine,
       "The smart contract was deployed at: " ++ "0xabc...123" ++ " on Scroll L2!"] ∧
    (successState "0xabc...123").exitCode = 0 ∧
    (successState "0xabc...123").deployCalls = [[]] :=
  C1_end_to_end
    { artifacts := ["CoinInu"], broadcastAccepted := true,
      assignedAddress := "0xabc...123", confirmsAt := some 1 }
    scrollL2 2 1 (by decide) rfl rfl (by decide)

/-- C2 counterexample: the configured network is named `scrollL2`, but the
success line's network label is the hardcoded `Scroll L2`, which differs
from the network name; the run's output is identical against a network of
any other name, so the label does not come from the target network. -/
theorem C2_counterexample :
    (runMain
      { artifacts := ["CoinInu"], broadcastAccepted := true,
        assignedAddress := "0xabc", confirmsAt := some 0 }
      scrollL2 1).state.stdoutLines =
      [progressLine, "The smart contract was deployed at: 0xabc on Scroll L2!"] ∧
    scrollL2.name = "scrollL2" ∧
    "The smart contract was deployed at: 0xabc on Scroll L2!" ≠
      "The smart contract was deployed at: 0xabc on scrollL2!" ∧
    runMain
      { artifacts := ["CoinInu"], broadcastAccepted := true,
        assignedAddress := "0xabc", confirmsAt := some 0 }
      scrollL2 1 =
    runMain
      { artifacts := ["CoinInu"], broadcastAccepted := true,
        assignedAddress := "0xabc", confirmsAt := some 0 }
      { name := "goerli", url := "https://example.invalid" } 1 := by
  exact ⟨rfl, rfl, by decide, rfl⟩

/-- C2 (amended): on every successful run the observable output is exactly
two lines — the progress notice, then
`The smart contract was deployed at: <address> on Scroll L2!` — where
`Scroll L2` is a hardcoded label; the output does not depend on the target
network at all. -/
theorem C2_output_two_lines (env : DeployEnv) (net other : NetworkConfig) (fuel t : Nat)
    (hart : "CoinInu" ∈ env.artifacts) (hacc : env.broadcastAccepted = true)
    (hconf : env.confirmsAt = some t) (hfuel : t ≤ fuel) :
    (runMain env net fuel).state.stdoutLines =
      [progressLine,
       "The smart contract was deployed at: " ++ env.assignedAddress ++ " on Scroll L2!"] ∧
    (runMain env net fuel).state.stdoutLines.length = 2 ∧
    runMain env net fuel = runMain env other fuel := by
  refine ⟨?_, ?_, rfl⟩ <;>
    rw [runMain_success env net fuel t hart hacc hconf hfuel] <;>
    simp [RunOutcome.state, successState, successLine, progressLine]

/-- C2 witness: the amended output-format theorem evaluated on a concrete
confirming environment and two concrete networks. -/
theorem C2_output_two_lines_witness :
    (runMain
      { artifacts := ["CoinInu"], broadcastAccepted := true,
        assignedAddress := "0xabc", confirmsAt := some 0 }
      scrollL2 1).state.stdoutLines =
      [progressLine,
       "The smart contract was deployed at: " ++ "0xabc" ++ " on Scroll L2!"] ∧
    (runMain
      { artifacts := ["CoinInu"], broadcastAccepted := true,
        assignedAddress := "0xabc", confirmsAt := some 0 }
      scrollL2 1).state.stdoutLines.length = 2 ∧
    runMain
      { artifacts := ["CoinInu"], broadcastAccepted := true,
        assignedAddress := "0xabc", confirmsAt := some 0 }
      scrollL2 1 =
    runMain
      { artifacts := ["CoinInu"], broadcastAccepted := true,
        assignedAddress := "0xabc", confirmsAt := some 0 }
      { name := "goerli", url := "https://example.invalid" } 1 :=
  C2_output_two_lines
    { artifacts := ["CoinInu"], broadcastAccepted := true,
      assignedAddress := "0xabc", confirmsAt := some 0 }
    scrollL2 { name := "goerli", url := "https://example.invalid" } 1 0
    (by decide) rfl rfl (by decide)

/-- C3 counterexample: on a run whose transaction is never confirmed, the
wait is still pending after a million steps, and there is no bound at which
it fails with `ConfirmationError` — the script configures no timeout. -/
theorem C3_counterexample :
    waitDeployed { address := "0xabc" } none 1000000 = WaitOutcome.stillPending ∧
    ¬ ∃ bound, waitDeployed { address := "0xabc" } none bound =
      WaitOutcome.failed DeployError.confirmationError := by
  refine ⟨rfl, ?_⟩
  rintro ⟨b, hb⟩
  simp [waitDeployed] at hb

/-- C3 (amended): the code imposes no upper bound on the confirmation wait:
on a run whose deployment is never confirmed the waiter is still pending
after every number of steps — it never fails with `ConfirmationError`,
never resolves to a `DeploymentResult`, and the whole run stays suspended
with only the progress line printed. -/
theorem C3_wait_unbounded (env : DeployEnv) (net : NetworkConfig) (fuel : Nat)
    (pd : PendingDeployment) (n : Nat)
    (hart : "CoinInu" ∈ env.artifacts) (hacc : env.broadcastAccepted = true)
    (hnc : env.confirmsAt = none) :
    waitDeployed pd none n = WaitOutcome.stillPending ∧
    (∀ r, waitDeployed pd none n ≠ WaitOutcome.resolved r) ∧
    (∀ e, waitDeployed pd none n ≠ WaitOutcome.failed e) ∧
    runMain env net fuel = RunOutcome.pending pendingState ∧
    pendingState.stdoutLines = [progressLine] := by
  refine ⟨rfl, by simp [waitDeployed], by simp [waitDeployed], ?_, rfl⟩
  exact runMain_pending env net fuel hart hacc (by simp [waitDeployed, hnc])

/-- C3 witness: the unbounded-wait theorem evaluated on a concrete
never-confirming environment, a million steps into the wait. -/
theorem C3_wait_unbounded_witness :
    waitDeployed { address := "0xabc" } none 1000000 = WaitOutcome.stillPending ∧
    (∀ r, waitDeployed { address := "0xabc" } none 1000000 ≠ WaitOutcome.resolved r) ∧
    (∀ e, waitDeployed { address := "0xabc" } none 1000000 ≠ WaitOutcome.failed e) ∧
    runMain
      { artifacts := ["CoinInu"], broadcastAccepted := true,
        assignedAddress := "0xabc", confirmsAt := none }
      scrollL2 1000000 = RunOutcome.pending pendingState ∧
    pendingState.stdoutLines = [progressLine] :=
  C3_wait_unbounded
    { artifacts := ["CoinInu"], broadcastAccepted := true,
      assignedAddress := "0xabc", confirmsAt := none }
    scrollL2 1000000 { address := "0xabc" } 1000000 (by decide) rfl rfl

/-- C4: every terminating run exits 0 exactly when the workflow succeeded
(both lines printed, address included, empty diagnostic stream) and exits 1
on any failure, in which case the error detail is on the diagnostic stream —
no failure is silent. -/
theorem C4_exit_status (env : DeployEnv) (net : NetworkConfig) (fuel : Nat)
    (s : RunState) (h : runMain env net fuel = RunOutcome.finished s) :
    (s.exitCode = 0 ∧ s.stderrLines = [] ∧
      ∃ a, s.stdoutLines = [progressLine, successLine a]) ∨
    (s.exitCode = 1 ∧ s.stderrLines ≠ []) := by
  rcases runMain_shape env net fuel with hs | hs | hs | hs <;> rw [hs] at h
  · injection h with h; subst h
    right; exact ⟨rfl, by simp [loadFailState]⟩
  · injection h with h; subst h
    right; exact ⟨rfl, by simp [submitFailState]⟩
  · injection h with h; subst h
    left; exact ⟨rfl, rfl, env.assignedAddress, rfl⟩
  · exact RunOutcome.noConfusion h

/-- C4 witness: the exit-status theorem evaluated on a concrete run whose
artifact set is empty, which terminates in the load-failure state. -/
theorem C4_exit_status_witness :
    (loadFailState.exitCode = 0 ∧ loadFailState.stderrLines = [] ∧
      ∃ a, loadFailState.stdoutLines = [progressLine, successLine a]) ∨
    (loadFailState.exitCode = 1 ∧ loadFailState.stderrLines ≠ []) :=
  C4_exit_status
    { artifacts := [], broadcastAccepted := true, assignedAddress := "0xabc",
      confirmsAt := some 0 }
    scrollL2 1 loadFailState (by decide)

/-- C5: when the requested name matches no compiled artifact, the run fails
with the named artifact-not-found error printed to the diagnostic stream,
exits 1, prints nothing to stdout, and never invokes `deploy()` — no
transaction is broadcast. -/
theorem C5_artifact_not_found (env : DeployEnv) (net : NetworkConfig) (fuel : Nat)
    (h : "CoinInu" ∉ env.artifacts) :
    runMain env net fuel = RunOutcome.finished loadFailState ∧
    loadFailState.stderrLines = [(DeployError.artifactNotFound "CoinInu").message] ∧
    loadFailState.exitCode = 1 ∧
    loadFailState.stdoutLines = [] ∧
    loadFailState.deployCalls = [] ∧
    Stage.submit ∉ loadFailState.stages :=
  ⟨runMain_load_failure env net fuel h, rfl, rfl, rfl, rfl, by decide⟩

/-- C5 witness: the artifact-not-found theorem evaluated on a concrete
artifact set that holds only `INUSCROLL` — the set the repository's actual
contract file compiles to. -/
theorem C5_artifact_not_found_witness :
    runMain
      { artifacts := ["INUSCROLL"], broadcastAccepted := true,
        assignedAddress := "0xabc", confirmsAt := some 0 }
      scrollL2 1 = RunOutcome.finished loadFailState ∧
    loadFailState.stderrLines = [(DeployError.artifactNotFound "CoinInu").message] ∧
    loadFailState.exitCode = 1 ∧
    loadFailState.stdoutLines = [] ∧
    loadFailState.deployCalls = [] ∧
    Stage.submit ∉ loadFailState.stages :=
  C5_artifact_not_found
    { artifacts := ["INUSCROLL"], broadcastAccepted := true,
      assignedAddress := "0xabc", confirmsAt := some 0 }
    scrollL2 1 (by decide)

/-- C6: every run enters the stages in a subsequence of the order
Loader, Submitter, Waiter, Reporter, starting with the Loader; no stage is
entered twice (no retries); and every terminating run ends at the Reporter,
which on failure carries the error on the diagnostic stream. -/
theorem C6_sequencing (env : DeployEnv) (net : NetworkConfig) (fuel : Nat) :
    (runMain env net fuel).state.stages.Sublist
      [Stage.load, Stage.submit, Stage.wait, Stage.report] ∧
    (runMain env net fuel).state.stages.head? = some Stage.load ∧
    (∀ st, (runMain env net fuel).state.stages.count st ≤ 1) ∧
    (∀ s, runMain env net fuel = RunOutcome.finished s →
      s.stages.getLast? = some Stage.report ∧
      (s.exitCode ≠ 0 → s.stderrLines ≠ [])) := by
  rcases runMain_shape env net fuel with hs | hs | hs | hs <;> rw [hs]
  · refine ⟨by decide, by decide, fun st => by cases st <;> decide, ?_⟩
    intro s h; injection h with h; subst h
    exact ⟨by decide, fun _ => by simp [loadFailState]⟩
  · refine ⟨by decide, by decide, fun st => by cases st <;> decide, ?_⟩
    intro s h; injection h with h; subst h
    exact ⟨by decide, fun _ => by simp [submitFailState]⟩
  · refine ⟨?_, rfl, fun st => ?_, ?_⟩
    · show ([Stage.load, Stage.submit, Stage.wait, Stage.report] : List Stage).Sublist
        [Stage.load, Stage.submit, Stage.wait, Stage.report]
      decide
    · show ([Stage.load, Stage.submit, Stage.wait, Stage.report] : List Stage).count st ≤ 1
      cases st <;> decide
    · intro s h; injection h with h; subst h
      exact ⟨rfl, fun h0 => absurd rfl h0⟩
  · refine ⟨by decide, by decide, fun st => by cases st <;> decide, ?_⟩
    intro s h; exact RunOutcome.noConfusion h

/-- C6 witness: the sequencing theorem evaluated on a concrete run with an
empty artifact set, whose terminating state is the load failure. -/
theorem C6_sequencing_witness :
    (runMain
      { artifacts := [], broadcastAccepted := true, assignedAddress := "0x0",
        confirmsAt := some 0 }
      scrollL2 1).state.stages.Sublist
      [Stage.load, Stage.submit, Stage.wait, Stage.report] ∧
    (runMain
      { artifacts := [], broadcastAccepted := true, assignedAddress := "0x0",
        confirmsAt := some 0 }
      scrollL2 1).state.stages.head? = some Stage.load ∧
    (runMain
      { artifacts := [], broadcastAccepted := true, assignedAddress := "0x0",
        confirmsAt := some 0 }
      scrollL2 1).state.stages.count Stage.report ≤ 1 ∧
    loadFailState.stages.getLast? = some Stage.report ∧
    loadFailState.stderrLines ≠ [] :=
  have h := C6_sequencing
    { artifacts := [], broadcastAccepted := true, assignedAddress := "0x0",
      confirmsAt := some 0 }
    scrollL2 1
  ⟨h.1, h.2.1, h.2.2.1 Stage.report,
   (h.2.2.2 loadFailState (by decide)).1,
   (h.2.2.2 loadFailState (by decide)).2 (by decide)⟩

/-- C7: `deploy()` resolves to a pending-deployment handle carrying the
final address as soon as the broadcast is accepted, independently of the
confirmation schedule (it does not block for confirmation); `deployed()` is
the step that suspends, resolving to the deployment result exactly once the
transaction is confirmed within the step budget; and a run that is still
suspended is suspended in the wait stage. -/
theorem C7_submit_then_wait (env : DeployEnv) (net : NetworkConfig)
    (c c' : Option Nat) (pd : PendingDeployment) (t1 fuel1 t2 fuel2 fuel : Nat)
    (s : RunState) (hacc : env.broadcastAccepted = true)
    (h1 : t1 ≤ fuel1) (h2 : fuel2 < t2)
    (hp : runMain env net fuel = RunOutcome.pending s) :
    factoryDeploy { env with confirmsAt := none } ctorArgs =
      Except.ok { address := env.assignedAddress } ∧
    factoryDeploy { env with confirmsAt := c } ctorArgs =
      factoryDeploy { env with confirmsAt := c' } ctorArgs ∧
    waitDeployed pd (some t1) fuel1 =
      WaitOutcome.resolved { address := pd.address } ∧
    waitDeployed pd (some t2) fuel2 = WaitOutcome.stillPending ∧
    s.stages.getLast? = some Stage.wait ∧ s = pendingState := by
  refine ⟨by simp [factoryDeploy, hacc], rfl, by simp [waitDeployed, h1],
    by simp [waitDeployed, Nat.not_le.mpr h2], ?_⟩
  rcases runMain_shape env net fuel with hs | hs | hs | hs <;> rw [hs] at hp
  · exact RunOutcome.noConfusion hp
  · exact RunOutcome.noConfusion hp
  · exact RunOutcome.noConfusion hp
  · injection hp with hp; subst hp; exact ⟨by decide, rfl⟩

/-- C7 witness: the submit-then-wait theorem evaluated on a concrete
never-confirming environment, with concrete confirmed and unconfirmed wait
observations. -/
theorem C7_submit_then_wait_witness :
    factoryDeploy
      { artifacts := ["CoinInu"], broadcastAccepted := true,
        assignedAddress := "0xabc", confirmsAt := none } ctorArgs =
      Except.ok { address := "0xabc" } ∧
    factoryDeploy
      { artifacts := ["CoinInu"], broadcastAccepted := true,
        assignedAddress := "0xabc", confirmsAt := some 5 } ctorArgs =
    factoryDeploy
      { artifacts := ["CoinInu"], broadcastAccepted := true,
        assignedAddress := "0xabc", confirmsAt := none } ctorArgs ∧
    waitDeployed { address := "0xdef" } (some 1) 2 =
      WaitOutcome.resolved { address := "0xdef" } ∧
    waitDeployed { address := "0xdef" } (some 7) 3 = WaitOutcome.stillPending ∧
    pendingState.stages.getLast? = some Stage.wait ∧
    pendingState = pendingState :=
  C7_submit_then_wait
    { artifacts := ["CoinInu"], broadcastAccepted := true,
      assignedAddress := "0xabc", confirmsAt := none }
    scrollL2 (some 5) none { address := "0xdef" } 1 2 7 3 4 pendingState
    rfl (by decide) (by decide) (by decide)

/-- C10: the progress notice appears on stdout only on runs where
submission resolved, and on any run where artifact loading or submission
fails nothing is printed to stdout — the error goes only to the diagnostic
stream and the exit code is 1. -/
theorem C10_progress_only_after_submit (env env2 : DeployEnv)
    (net net2 : NetworkConfig) (fuel fuel2 : Nat)
    (h : "CoinInu" ∉ env.artifacts ∨ env.broadcastAccepted = false)
    (hp : progressLine ∈ (runMain env2 net2 fuel2).state.stdoutLines) :
    (runMain env net fuel).state.stdoutLines = [] ∧
    (runMain env net fuel).state.stderrLines ≠ [] ∧
    (runMain env net fuel).state.exitCode = 1 ∧
    factoryDeploy env2 ctorArgs = Except.ok { address := env2.assignedAddress } := by
  have hfail : (runMain env net fuel).state.stdoutLines = [] ∧
      (runMain env net fuel).state.stderrLines ≠ [] ∧
      (runMain env net fuel).state.exitCode = 1 := by
    rcases h with h | h
    · rw [runMain_load_failure env net fuel h]
      exact ⟨rfl, by simp [RunOutcome.state, loadFailState], rfl⟩
    · by_cases hart : "CoinInu" ∈ env.artifacts
      · rw [runMain_submit_failure env net fuel hart h]
        exact ⟨rfl, by simp [RunOutcome.state, submitFailState], rfl⟩
      · rw [runMain_load_failure env net fuel hart]
        exact ⟨rfl, by simp [RunOutcome.state, loadFailState], rfl⟩
  refine ⟨hfail.1, hfail.2.1, hfail.2.2, ?_⟩
  cases hacc2 : env2.broadcastAccepted with
  | true => simp [factoryDeploy, hacc2]
  | false =>
    exfalso
    by_cases hart2 : "CoinInu" ∈ env2.artifacts
    · rw [runMain_submit_failure env2 net2 fuel2 hart2 hacc2] at hp
      simp [RunOutcome.state, submitFailState] at hp
    · rw [runMain_load_failure env2 net2 fuel2 hart2] at hp
      simp [RunOutcome.state, loadFailState] at hp

/-- C10 witness: the theorem evaluated on a concrete submission-rejected
run and a concrete successful run. -/
theorem C10_progress_only_after_submit_witness :
    (runMain
      { artifacts := ["CoinInu"], broadcastAccepted := false,
        assignedAddress := "0xabc", confirmsAt := some 0 }
      scrollL2 1).state.stdoutLines = [] ∧
    (runMain
      { artifacts := ["CoinInu"], broadcastAccepted := false,
        assignedAddress := "0xabc", confirmsAt := some 0 }
      scrollL2 1).state.stderrLines ≠ [] ∧
    (runMain
      { artifacts := ["CoinInu"], broadcastAccepted := false,
        assignedAddress := "0xabc", confirmsAt := some 0 }
      scrollL2 1).state.exitCode = 1 ∧
    factoryDeploy
      { artifacts := ["CoinInu"], broadcastAccepted := true,
        assignedAddress := "0xdef", confirmsAt := some 0 } ctorArgs =
      Except.ok { address := "0xdef" } :=
  C10_progress_only_after_submit
    { artifacts := ["CoinInu"], broadcastAccepted := false,
      assignedAddress := "0xabc", confirmsAt := some 0 }
    { artifacts := ["CoinInu"], broadcastAccepted := true,
      assignedAddress := "0xdef", confirmsAt := some 0 }
    scrollL2 scrollL2 1 1 (Or.inr rfl) (by decide)

/-- C8: the file `contracts/CoinInu.sol` declares a contract named
`INUSCROLL` with ERC-20 name `INU SCROLL` and symbol `SINU`, so it produces
no artifact named `CoinInu`; the factory name `CoinInu` requested by the
deploy script matches only the contract of the unnamed source file, whose
name is `Coin Inu` and symbol `CINU`. -/
theorem C8_contract_names :
    artifactName coinInuSolContract = "INUSCROLL" ∧
    coinInuSolContract.tokenName = "INU SCROLL" ∧
    coinInuSolContract.tokenSymbol = "SINU" ∧
    artifactName coinInuSolContract ≠ requestedFactoryName ∧
    artifactName readmeContract = requestedFactoryName ∧
    readmeContract.tokenName = "Coin Inu" ∧
    readmeContract.tokenSymbol = "CINU" := by
  refine ⟨rfl, rfl, rfl, ?_, rfl, rfl, rfl⟩
  decide

/-- C9: immediately after the token constructor runs, the total supply is
`1000000000 * 10 ^ decimals()` (which is `10 ^ 27` with the inherited
default of 18 decimals), the deployer holds the entire supply, every other
account holds 0, and the minted amount fits in a 256-bit word, so Solidity
0.8 checked arithmetic does not revert. -/
theorem C9_initial_supply (sender other : String) (h : other ≠ sender) :
    (coinInuConstructor sender).totalSupply = 1000000000 * 10 ^ decimals ∧
    (coinInuConstructor sender).totalSupply = 10 ^ 27 ∧
    (coinInuConstructor sender).balanceOf sender =
      (coinInuConstructor sender).totalSupply ∧
    (coinInuConstructor sender).balanceOf other = 0 ∧
    mintAmount < 2 ^ 256 := by
  refine ⟨rfl, by norm_num [coinInuConstructor, mint, initialERC20, mintAmount, decimals], ?_, ?_, by norm_num [mintAmount, decimals]⟩
  · simp [coinInuConstructor, mint, initialERC20]
  · simp [coinInuConstructor, mint, initialERC20, h]

/-- C9 witness: the constructor state evaluated for a concrete deployer and
a concrete distinct other account. -/
theorem C9_initial_supply_witness :
    (coinInuConstructor "0xdeployer").totalSupply = 1000000000 * 10 ^ decimals ∧
    (coinInuConstructor "0xdeployer").totalSupply = 10 ^ 27 ∧
    (coinInuConstructor "0xdeployer").balanceOf "0xdeployer" =
      (coinInuConstructor "0xdeployer").totalSupply ∧
    (coinInuConstructor "0xdeployer").balanceOf "0xother" = 0 ∧
    mintAmount < 2 ^ 256 :=
  C9_initial_supply "0xdeployer" "0xother" (by decide)

end ScrollDeploy
